import Mathlib

/-!
Shallow embedding of the autopoiesis boid simulation (source files
`boid.py`, `goal.py`, `unity.py`, `app.py`).

Modelling conventions:
* Python floats are modelled as `ℚ` (exact rational arithmetic); the float
  literal `0.1` is modelled as `1/10`, and `np.linalg.norm d < SPACE` is
  modelled by the equivalent `dx*dx + dy*dy < SPACE*SPACE`.
* `pygame.Rect` coordinates are integers; assigning a float to them
  truncates toward zero (`pyInt`), like Python's `int(...)`.
* Python object identity is modelled with explicit id fields: `Boid.bid`
  for boids (used by the `boid != current_boid` tests), and goal objects
  live in a heap `World.heap : List Goal` addressed by index, with the
  active pool `World.pool` a list of heap indices (so `self.goal not in
  goals` and `goals.remove(self.goal)` act on identities, as in Python).
* Randomness is an explicit oracle `Rng`: a stream of float draws `qs`
  (for `random()`), a stream of naturals `ks` (each `randint(lo, hi)`
  call consumes one `k` and yields `lo + k % (hi - lo + 1)`; for
  `randint(0, len-1)` on an empty list Python raises, modelled as
  `Option.none`), and a stream of permutations `perms` for
  `np.random.shuffle` (an invalid permutation is ignored, so shuffling
  always permutes the list, as in NumPy).
* Python `for x in xs` loops that mutate `xs` (pop/append/remove during
  iteration) are modelled as index-driven loops with fuel, matching
  CPython semantics: the iterator keeps a cursor into the live list.
* Python's `x in range(a, b)` (used on possibly-fractional floats in
  `check_obstacles`) is a linear membership scan, modelled by
  `memRangeQ` over the explicit list of integers `rangeList a b`.
-/

namespace Autopoiesis

/- Rational arithmetic must evaluate inside `decide` proofs about
concrete simulation states; the Batteries kernel implementations are
sealed by default. -/
attribute [local semireducible] Rat.add Rat.sub Rat.mul Rat.inv

/-- Unity.SPACE: allowable space among boids (unity.py). -/
def SPACE : ℚ := 25

/-- Boid.BOID_EXT_WIDTH (boid.py). -/
def BOID_EXT_WIDTH : ℤ := 11

/-- Boid.BOID_EXT_HEIGHT (boid.py). -/
def BOID_EXT_HEIGHT : ℤ := 30

/-- Boid.MAX_VEL (boid.py). -/
def MAX_VEL : ℚ := 2

/-- One boid (boid.py): rect position, velocity, acceleration, perceived
center, health.  Rendering-only fields (angularV, radians, surface) are
omitted.  `bid` models Python object identity. -/
structure Boid where
  bid : ℕ
  rx : ℤ
  ry : ℤ
  vx : ℚ
  vy : ℚ
  ax : ℚ
  ay : ℚ
  cx : ℚ
  cy : ℚ
  health : ℚ
deriving DecidableEq, Repr

/-- One goal / external component (goal.py). -/
structure Goal where
  circleX : ℤ
  circleY : ℤ
  radius : ℤ
  health : ℤ
deriving DecidableEq, Repr

/-- One unity (unity.py constructor state). -/
structure Unity where
  boids : List Boid
  goal : ℕ
  radius : ℚ
  generation : ℕ
  splits : ℕ
  metabolised : ℕ
deriving DecidableEq, Repr

/-- The world: the global `unities` and `goals` lists of app.py.
`pool` holds heap indices of the active goals; `heap` holds every goal
object ever created; `nextBid` generates fresh boid identities. -/
structure World where
  unities : List Unity
  pool : List ℕ
  heap : List Goal
  nextBid : ℕ
deriving DecidableEq, Repr

/-- Randomness oracle (see module docstring). -/
structure Rng where
  qs : List ℚ
  ks : List ℕ
  perms : List (List ℕ)
deriving DecidableEq, Repr

def defaultBoid : Boid := ⟨0, 0, 0, 0, 0, 0, 0, 0, 0, 0⟩

def defaultGoal : Goal := ⟨0, 0, 0, 0⟩

def defaultUnity : Unity := ⟨[], 0, 0, 0, 0, 0⟩

/-- Consume one `random()` draw. -/
def popQ (r : Rng) : ℚ × Rng := (r.qs.headD 0, { r with qs := r.qs.tail })

/-- Consume one `randint` draw. -/
def popK (r : Rng) : ℕ × Rng := (r.ks.headD 0, { r with ks := r.ks.tail })

/-- Consume one `np.random.shuffle` permutation. -/
def popPerm (r : Rng) : List ℕ × Rng :=
  (r.perms.headD [], { r with perms := r.perms.tail })

/-- Apply a permutation (given as a list of indices) to a list; an
invalid permutation is ignored, so the result is always a rearrangement
of the input, as with `np.random.shuffle`. -/
def applyPerm (σ : List ℕ) (l : List α) : List α :=
  if σ.length = l.length ∧ σ.Nodup ∧ ∀ i ∈ σ, i < l.length
  then σ.filterMap (fun i => l[i]?) else l

/-- Python's `int(q)`: truncation toward zero. -/
def pyInt (q : ℚ) : ℤ := if 0 ≤ q then ⌊q⌋ else -⌊-q⌋

/-- The list `list(range(a, b))`. -/
def rangeList (a b : ℤ) : List ℤ :=
  (List.range (b - a).toNat).map (fun i : ℕ => a + (i : ℤ))

/-- Python's `q in range(a, b)` for a float `q`: a linear scan comparing
`q` with each integer of the range. -/
def memRangeQ (q : ℚ) (a b : ℤ) : Bool :=
  (rangeList a b).any (fun n => decide (q = (n : ℚ)))

/-- Dereference a goal id in the heap. -/
def getGoal (w : World) (g : ℕ) : Goal := w.heap.getD g defaultGoal

/-- Goal.hit(): decrement the goal object's health by 1 (goal.py). -/
def hit_goal (w : World) (g : ℕ) : World :=
  let go := getGoal w g
  { w with heap := w.heap.set g { go with health := go.health - 1 } }

/-- Replace the unity stored at index `i`. -/
def setUnity (w : World) (i : ℕ) (u : Unity) : World :=
  { w with unities := w.unities.set i u }

/-- Replace the boid stored at index `k`. -/
def setBoid (u : Unity) (k : ℕ) (b : Boid) : Unity :=
  { u with boids := u.boids.set k b }

/-- Unity.pursue (unity.py): `(goal - current_boid.center) / 40`.
Note the source reads `current_boid.center`, not the rect position. -/
def pursue (w : World) (u : Unity) (b : Boid) : ℚ × ℚ :=
  let g := getGoal w u.goal
  (((g.circleX : ℚ) - b.cx) / 40, ((g.circleY : ℚ) - b.cy) / 40)

/-- Unity.cohesion (unity.py).  For a singleton unity it returns the zero
vector; otherwise it accumulates every *other* boid's rect position into
the current boid's stored `center` (a running accumulator that starts
from the stale stored value), divides by `size()`, stores the result
back into `center`, and returns `(center - position) / 100`.  The
returned pair is the force; the returned boid carries the mutated
center. -/
def cohesion (u : Unity) (b : Boid) : (ℚ × ℚ) × Boid :=
  if u.boids.length = 1 then ((0, 0), b)
  else
    let c := u.boids.foldl
      (fun c ob => if ob.bid ≠ b.bid then (c.1 + (ob.rx : ℚ), c.2 + (ob.ry : ℚ)) else c)
      (b.cx, b.cy)
    let n : ℚ := (u.boids.length : ℚ)
    let ncx := c.1 / n
    let ncy := c.2 / n
    (((ncx - (b.rx : ℚ)) / 100, (ncy - (b.ry : ℚ)) / 100),
     { b with cx := ncx, cy := ncy })

/-- Unity.separation (unity.py): over every boid of every unity other
than the current boid itself, if the Euclidean distance is < SPACE,
accumulate `-(other - current)`. -/
def separation (w : World) (b : Boid) : ℚ × ℚ :=
  w.unities.foldl (fun v u =>
    u.boids.foldl (fun v ob =>
      if ob.bid ≠ b.bid then
        let dx : ℚ := (ob.rx : ℚ) - (b.rx : ℚ)
        let dy : ℚ := (ob.ry : ℚ) - (b.ry : ℚ)
        if dx * dx + dy * dy < SPACE * SPACE then (v.1 - dx, v.2 - dy) else v
      else v) v) (0, 0)

/-- Boid.limit_velocity (boid.py): per-axis clamp to `MAX_VEL`
preserving sign. -/
def limit_velocity (b : Boid) : Boid :=
  let b1 := if MAX_VEL < |b.vx| then { b with vx := b.vx / |b.vx| * MAX_VEL } else b
  if MAX_VEL < |b1.vy| then { b1 with vy := b1.vy / |b1.vy| * MAX_VEL } else b1

/-- The force/velocity portion of the body of Unity.update for one boid:
cohesion (which mutates the boid's center), separation, pursue, then
`acceleration = v1 + v2 + (PURSUE * v3)`, `velocity += acceleration`,
`limit_velocity()`.  `p` is the global `Unity.PURSUE` flag. -/
def boid_forces (p : Bool) (w : World) (u : Unity) (b : Boid) : Boid :=
  let r1 := cohesion u b
  let v1 := r1.1
  let b1 := r1.2
  let v2 := separation w b1
  let v3 := pursue w u b1
  let accx := v1.1 + v2.1 + (if p then v3.1 else 0)
  let accy := v1.2 + v2.2 + (if p then v3.2 else 0)
  limit_velocity
    { b1 with ax := accx, ay := accy, vx := b1.vx + accx, vy := b1.vy + accy }

/-- Unity.check_obstacles (unity.py): if the proposed `(x, y)` passes the
`in range(...)` membership tests against the goal's box (x extent twice
the radius, y extent the radius), the move is shifted by minus the
offset from the boid's rect position to the goal and the velocity
becomes `-velocity * 0.1`; otherwise everything is unchanged. -/
def check_obstacles (w : World) (u : Unity) (x y : ℚ) (b : Boid) :
    (ℚ × ℚ) × Boid :=
  let g := getGoal w u.goal
  if memRangeQ x (g.circleX - g.radius * 2) (g.circleX + g.radius * 2)
      && memRangeQ y (g.circleY - g.radius) (g.circleY + g.radius) then
    ((x - ((g.circleX : ℚ) - (b.rx : ℚ)), y - ((g.circleY : ℚ) - (b.ry : ℚ))),
     { b with vx := -b.vx * (1/10), vy := -b.vy * (1/10) })
  else ((x, y), b)

/-- Unity.check_boundaries (unity.py), with the source's `y < 0` branch
faithfully reproduced: it executes `current_boid.velocity[y] = ...`
where `y` has just been set to `0`, so it assigns `velocity[X] :=
-velocity[Y]` and leaves `velocity[Y]` unchanged. -/
def check_boundaries (x y : ℚ) (width height : ℤ) (b : Boid) :
    (ℚ × ℚ) × Boid :=
  let x1 := if x < 0 then (0 : ℚ) else x
  let b1 := if x < 0 then { b with vx := -b.vx } else b
  let x2 := if ((width - BOID_EXT_WIDTH : ℤ) : ℚ) < x1
            then ((width - BOID_EXT_WIDTH : ℤ) : ℚ) else x1
  let b2 := if ((width - BOID_EXT_WIDTH : ℤ) : ℚ) < x1
            then { b1 with vx := -b1.vx } else b1
  let y1 := if y < 0 then (0 : ℚ) else y
  let b3 := if y < 0 then { b2 with vx := -b2.vy } else b2
  let y2 := if ((height - BOID_EXT_HEIGHT : ℤ) : ℚ) < y1
            then ((height - BOID_EXT_HEIGHT : ℤ) : ℚ) else y1
  let b4 := if ((height - BOID_EXT_HEIGHT : ℤ) : ℚ) < y1
            then { b3 with vy := -b3.vy } else b3
  ((x2, y2), b4)

/-- Slice `goals[randint(0, len(goals)-1)]` (app.py get_random_goal and
the two reassignments inside unity.py check_goal): `randint(0, n-1)` on
an empty list raises (modelled `none`); on a non-empty list it yields an
index in `[0, n)`, modelled as `k % n` for the consumed oracle value
`k`. -/
def get_random_goal (pool : List ℕ) (k : ℕ) : Option ℕ :=
  pool[k % pool.length]?

/-- The `try: goals.remove(self.goal) except: ...` of check_goal: remove
the goal if present; removing an absent goal is absorbed (the except
branch merely prints). -/
def remove_goal (pool : List ℕ) (g : ℕ) : List ℕ :=
  if g ∈ pool then pool.erase g else pool

/-- A boid freshly constructed by `Boid(x, y)` (boid.py): velocity
`MIN_VEL = (0.5, 0.5)`, zero acceleration, center and rect at `(x, y)`,
health `randint(1000, 3000)` from the oracle value `pick`. -/
def new_boid (bid : ℕ) (x y : ℤ) (pick : ℕ) : Boid :=
  { bid := bid, rx := x, ry := y, vx := 1/2, vy := 1/2, ax := 0, ay := 0,
    cx := (x : ℚ), cy := (y : ℚ), health := ((1000 + pick % 2001 : ℕ) : ℚ) }

/-- First step of check_goal: `if self.goal not in goals: self.goal =
goals[randint(0, len(goals)-1)]`. -/
def reassign_if_lost (u : Unity) (pool : List ℕ) (rng : Rng) :
    Option (Unity × Rng) :=
  if u.goal ∈ pool then some (u, rng)
  else
    match get_random_goal pool (popK rng).1 with
    | none => none
    | some g => some ({ u with goal := g }, (popK rng).2)

/-- The bounding-box overlap test of check_goal: the boid's truncated
center widened by `size()` against the goal's box widened by its radius,
via the source's `any(x in x_range_goal for x in x_range_center)`
double scan over explicit `range` lists. -/
def goal_ranges_overlap (w : World) (u : Unity) (b : Boid) : Bool :=
  let g := getGoal w u.goal
  let radius : ℤ := (u.boids.length : ℤ)
  let cx := pyInt b.cx
  let cy := pyInt b.cy
  ((rangeList (cx - radius) (cx + radius)).any
      (fun x => (rangeList (g.circleX - g.radius) (g.circleX + g.radius)).contains x))
  && ((rangeList (cy - radius) (cy + radius)).any
      (fun y => (rangeList (g.circleY - g.radius) (g.circleY + g.radius)).contains y))

/-- One `self.boids.append(Boid(goal.circleX, goal.circleY))` followed by
`self.radius = self.size()/2`, inside the metabolize loop of
check_goal. -/
def append_goal_boid (u : Unity) (w : World) (rng : Rng) :
    Unity × World × Rng :=
  let g := getGoal w u.goal
  let pr := popK rng
  let nb := new_boid w.nextBid g.circleX g.circleY pr.1
  let bs := u.boids ++ [nb]
  ({ u with boids := bs, radius := (bs.length : ℚ) / 2 },
   { w with nextBid := w.nextBid + 1 }, pr.2)

/-- The metabolize branch of check_goal (`self.goal.health <= 250` after
the hit): three appended boids with radius recomputation, removal of the
goal from the pool (absorbing an absent goal), reassignment of a fresh
random target, and `metabolised += 1`. -/
def metabolize (ui : ℕ) (u : Unity) (w : World) (rng : Rng) :
    Option (World × Rng) :=
  let r1 := append_goal_boid u w rng
  let r2 := append_goal_boid r1.1 r1.2.1 r1.2.2
  let r3 := append_goal_boid r2.1 r2.2.1 r2.2.2
  let u3 := r3.1
  let w3 := r3.2.1
  let rng3 := r3.2.2
  let pool2 := remove_goal w3.pool u3.goal
  let pr := popK rng3
  match get_random_goal pool2 pr.1 with
  | none => none
  | some ng =>
      some (setUnity { w3 with pool := pool2 } ui
              { u3 with goal := ng, metabolised := u3.metabolised + 1 },
            pr.2)

/-- Unity.check_goal (unity.py) for the unity at index `ui` and current
boid `b`; `none` models the uncaught `ValueError` of `randint(0, -1)` on
an empty pool. -/
def check_goal (ui : ℕ) (b : Boid) (w : World) (rng : Rng) :
    Option (World × Rng) :=
  let u0 := w.unities.getD ui defaultUnity
  match reassign_if_lost u0 w.pool rng with
  | none => none
  | some (u, rng1) =>
      let w1 := setUnity w ui u
      if goal_ranges_overlap w1 u b then
        let w2 := hit_goal w1 u.goal
        if (getGoal w2 u.goal).health ≤ 250 then metabolize ui u w2 rng1
        else some (w2, rng1)
      else some (w1, rng1)

/-- One pursue-computation record: which unity index called
Unity.pursue, which goal id it used, and whether that goal was in the
active pool at that moment. -/
structure PursueEvent where
  uidx : ℕ
  gid : ℕ
  inPool : Bool
deriving DecidableEq, Repr

/-- The loop body of Unity.update (unity.py) over the live boid list,
with CPython iterator semantics for the `self.boids.pop(i)` inside the
loop: the cursor still advances, so the element after a popped boid is
skipped, and the popped boid itself still receives the force
computation (whose writes to it are lost).  Each iteration consumes one
`random()` health draw.  A `PursueEvent` is recorded at the
`self.pursue(boid)` call. -/
def update_loop (p : Bool) (ui : ℕ) : ℕ → ℕ → World → Rng →
    List PursueEvent → World × Rng × List PursueEvent
  | 0, _, w, rng, evs => (w, rng, evs)
  | fuel + 1, k, w, rng, evs =>
    let u := w.unities.getD ui defaultUnity
    if h : k < u.boids.length then
      let b0 := u.boids.get ⟨k, h⟩
      let dq := popQ rng
      let b := { b0 with health := b0.health - dq.1 }
      let u1 := setBoid u k b
      let dead := b.health ≤ 0
      let u2 := if dead then
          let bs := u1.boids.eraseIdx k
          { u1 with boids := bs, radius := (bs.length : ℚ) / 2 }
        else u1
      let w2 := setUnity w ui u2
      let b' := boid_forces p w2 u2 b
      let ev : PursueEvent := ⟨ui, u2.goal, decide (u2.goal ∈ w2.pool)⟩
      let w3 := if dead then w2 else setUnity w2 ui (setBoid u2 k b')
      update_loop p ui fuel (k + 1) w3 dq.2 (evs ++ [ev])
    else (w, rng, evs)

/-- Unity.update (unity.py): run the loop with fuel equal to the initial
boid count (the cursor only ever advances and the list never grows, so
this covers every iteration Python performs). -/
def update (p : Bool) (ui : ℕ) (w : World) (rng : Rng)
    (evs : List PursueEvent) : World × Rng × List PursueEvent :=
  update_loop p ui ((w.unities.getD ui defaultUnity).boids.length) 0 w rng evs

/-- The loop body of Unity.move (unity.py): propose `rect + velocity`,
check obstacles then boundaries, run check_goal (which may append boids
that the live-list iterator will reach later), then commit the truncated
position into the rect.  `none` when check_goal fails or the fuel bound
is exhausted before the iterator finishes. -/
def move_loop (width height : ℤ) (ui : ℕ) : ℕ → ℕ → World → Rng →
    Option (World × Rng)
  | 0, k, w, rng =>
    if k < (w.unities.getD ui defaultUnity).boids.length then none
    else some (w, rng)
  | fuel + 1, k, w, rng =>
    let u := w.unities.getD ui defaultUnity
    if h : k < u.boids.length then
      let b0 := u.boids.get ⟨k, h⟩
      let x0 := (b0.rx : ℚ) + b0.vx
      let y0 := (b0.ry : ℚ) + b0.vy
      let ro := check_obstacles w u x0 y0 b0
      let rc := check_boundaries ro.1.1 ro.1.2 width height ro.2
      let b1 := rc.2
      let w1 := setUnity w ui (setBoid u k b1)
      match check_goal ui b1 w1 rng with
      | none => none
      | some (w2, rng2) =>
          let u2 := w2.unities.getD ui defaultUnity
          let b2 := { b1 with rx := pyInt rc.1.1, ry := pyInt rc.1.2 }
          move_loop width height ui fuel (k + 1)
            (setUnity w2 ui (setBoid u2 k b2)) rng2
    else some (w, rng)

/-- Unity.move (unity.py) with an explicit fuel bound on the number of
iterations of the live-list loop. -/
def move (width height : ℤ) (ui fuel : ℕ) (w : World) (rng : Rng) :
    Option (World × Rng) :=
  move_loop width height ui fuel 0 w rng

/-- Unity.split (unity.py): shuffle, keep `boids[0:mid]`, return
`boids[mid+1:size-1]` (the source's slicing) with each returned boid's
velocity divided by `index+1`; halve the radius and increment
`splits`. -/
def split (u : Unity) (rng : Rng) : Unity × List Boid × Rng :=
  let n := u.boids.length
  let mid := n / 2
  let pr := popPerm rng
  let shuffled := applyPerm pr.1 u.boids
  let given0 := (shuffled.drop (mid + 1)).take (n - 1 - (mid + 1))
  let kept := shuffled.take mid
  let given := given0.enum.map (fun q =>
    { q.2 with vx := q.2.vx / ((q.1 + 1 : ℕ) : ℚ),
               vy := q.2.vy / ((q.1 + 1 : ℕ) : ℚ) })
  ({ u with boids := kept, radius := u.radius / 2, splits := u.splits + 1 },
   given, pr.2)

/-- app.py self_reproduction: split the unity at `ui`, pick a random goal
for the offspring (`none` if the pool is empty), and append the new
unity (constructor defaults: radius 5, zero counters) with
`generation = parent.generation + 1`. -/
def self_reproduction (ui : ℕ) (w : World) (rng : Rng) :
    Option (World × Rng) :=
  let u := w.unities.getD ui defaultUnity
  let s := split u rng
  let w1 := setUnity w ui s.1
  let pr := popK s.2.2
  match get_random_goal w1.pool pr.1 with
  | none => none
  | some g =>
      some ({ w1 with unities := w1.unities ++
                [{ boids := s.2.1, goal := g, radius := 5,
                   generation := u.generation + 1, splits := 0,
                   metabolised := 0 }] }, pr.2)

/-- The loop body of app.py update_boid_positions over the live
`unities` list: remove an empty unity (the cursor still advances, and
update/move on the removed empty unity are no-ops), split an oversized
one (appending a new unity the iterator will reach), then update and
move. -/
def ubp_loop (p : Bool) (width height : ℤ) (mvfuel : ℕ) : ℕ → ℕ →
    World → Rng → List PursueEvent →
    Option (World × Rng × List PursueEvent)
  | 0, k, w, rng, evs =>
    if k < w.unities.length then none else some (w, rng, evs)
  | fuel + 1, k, w, rng, evs =>
    if h : k < w.unities.length then
      let u := w.unities.get ⟨k, h⟩
      if u.boids.length = 0 then
        ubp_loop p width height mvfuel fuel (k + 1)
          { w with unities := w.unities.eraseIdx k } rng evs
      else
        let step1 : Option (World × Rng) :=
          if 20 ≤ u.boids.length then self_reproduction k w rng
          else some (w, rng)
        match step1 with
        | none => none
        | some (wa, rnga) =>
            let r := update p k wa rnga evs
            match move width height k mvfuel r.1 r.2.1 with
            | none => none
            | some (wb, rngb) =>
                ubp_loop p width height mvfuel fuel (k + 1) wb rngb r.2.2
    else some (w, rng, evs)

/-- app.py update_boid_positions: the per-frame pass over all unities. -/
def update_boid_positions (p : Bool) (width height : ℤ)
    (fuel mvfuel : ℕ) (w : World) (rng : Rng) :
    Option (World × Rng × List PursueEvent) :=
  ubp_loop p width height mvfuel fuel 0 w rng []

/-! Specification-side definitions, written from the spec's words, for
comparison with the source-derived definitions above. -/

/-- Modelled from the spec: the cohesion force as the spec describes it,
`(barycenter of all other Agents in the same Group - a.position) / 100`,
zero for a singleton group. -/
def spec_cohesion (u : Unity) (b : Boid) : ℚ × ℚ :=
  if u.boids.length = 1 then (0, 0)
  else
    let others := u.boids.filter (fun ob => ob.bid ≠ b.bid)
    let n : ℚ := (others.length : ℚ)
    let sx := others.foldl (fun s ob => s + (ob.rx : ℚ)) 0
    let sy := others.foldl (fun s ob => s + (ob.ry : ℚ)) 0
    ((sx / n - (b.rx : ℚ)) / 100, (sy / n - (b.ry : ℚ)) / 100)

/-- Modelled from the spec: "(x, y) falls within the target Resource's
bounding box" read as real-valued containment in the closed box whose
extents match the source's range endpoints. -/
def inObstacleBoxReal (g : Goal) (x y : ℚ) : Prop :=
  ((g.circleX - g.radius * 2 : ℤ) : ℚ) ≤ x ∧ x ≤ ((g.circleX + g.radius * 2 : ℤ) : ℚ) ∧
  ((g.circleY - g.radius : ℤ) : ℚ) ≤ y ∧ y ≤ ((g.circleY + g.radius : ℤ) : ℚ)

instance (g : Goal) (x y : ℚ) : Decidable (inObstacleBoxReal g x y) := by
  unfold inObstacleBoxReal; infer_instance

/-- Claim C7's per-event invariant: when Unity.pursue runs, the goal it
uses is in the active pool, or the unity's target has been replaced
since the frame started (goal ids are never re-added to the pool within
a frame, so a replaced target shows up as a changed goal id). -/
def pursuit_target_ok (w0 : World) (e : PursueEvent) : Prop :=
  e.inPool = true ∨ (w0.unities.getD e.uidx defaultUnity).goal ≠ e.gid

instance (w0 : World) (e : PursueEvent) : Decidable (pursuit_target_ok w0 e) := by
  unfold pursuit_target_ok; infer_instance

/-- Claim C7 as stated, for one concrete frame execution: every pursue
computation during update_boid_positions uses a target that is in the
pool or has been replaced since its removal. -/
def pursuit_invariant_run (p : Bool) (width height : ℤ)
    (fuel mvfuel : ℕ) (w0 : World) (rng : Rng) : Prop :=
  match update_boid_positions p width height fuel mvfuel w0 rng with
  | none => True
  | some r => ∀ e ∈ r.2.2, pursuit_target_ok w0 e

instance (p : Bool) (width height : ℤ) (fuel mvfuel : ℕ) (w0 : World)
    (rng : Rng) :
    Decidable (pursuit_invariant_run p width height fuel mvfuel w0 rng) := by
  unfold pursuit_invariant_run
  rcases update_boid_positions p width height fuel mvfuel w0 rng with _ | r
  · exact isTrue trivial
  · exact List.decidableBAll _ _

/-! Concrete scenario data used by the per-claim evaluation theorems. -/

/-- A generic boid for the split scenario. -/
def mkBoid (i : ℕ) : Boid := ⟨i, (i : ℤ), 0, 1/2, 1/2, 0, 0, (i : ℚ), 0, 1000⟩

def uC1 : Unity := ⟨(List.range 20).map mkBoid, 0, 5, 3, 0, 0⟩

def wC1 : World := ⟨[uC1], [0, 1], [⟨100, 100, 10, 1000⟩, ⟨500, 500, 10, 1000⟩], 100⟩

def rngC1 : Rng := ⟨[], [0], [List.range 20]⟩

def bC2 : Boid := ⟨0, 50, 50, 3, 7, 0, 0, 50, 50, 100⟩

def bC3 : Boid := ⟨0, 0, 0, 1/2, 1/2, 0, 0, 10, 10, 100⟩

def bC3b : Boid := ⟨1, 20, 0, 1/2, 1/2, 0, 0, 20, 0, 100⟩

def uC3 : Unity := ⟨[bC3, bC3b], 0, 1, 0, 0, 0⟩

/-- A singleton group for the size-1 branch of cohesion. -/
def uC3s : Unity := ⟨[bC3], 0, 1, 0, 0, 0⟩

def bC4 : Boid := ⟨0, 0, 0, 1/2, 1/2, 0, 0, 100, 0, 100⟩

def uC4 : Unity := ⟨[bC4], 0, 1, 0, 0, 0⟩

def wC4 : World := ⟨[uC4], [0], [⟨200, 0, 10, 1000⟩], 1⟩

def gC5 : Goal := ⟨200, 200, 10, 1000⟩

def bC5 : Boid := ⟨0, 150, 150, 1, 1, 0, 0, 150, 150, 100⟩

def uC5 : Unity := ⟨[bC5], 0, 1, 0, 0, 0⟩

def wC5 : World := ⟨[uC5], [0], [gC5], 1⟩

def bC6a : Boid := ⟨0, 0, 0, 1/2, 1/2, 0, 0, 0, 0, 1/2⟩

def bC6b : Boid := ⟨1, 100, 100, 1/2, 1/2, 0, 0, 100, 100, 5⟩

def uC6 : Unity := ⟨[bC6a, bC6b], 0, 1, 0, 0, 0⟩

def wC6 : World := ⟨[uC6], [0], [⟨900, 900, 10, 1000⟩], 2⟩

def rngC6 : Rng := ⟨[1/2, 1/2], [], []⟩

def gC7a : Goal := ⟨200, 200, 10, 251⟩

def gC7b : Goal := ⟨1000, 900, 10, 1000⟩

def bC7a : Boid := ⟨0, 200, 200, 1/2, 1/2, 0, 0, 200, 200, 1000⟩

def bC7b : Boid := ⟨1, 600, 600, 1/2, 1/2, 0, 0, 600, 600, 1000⟩

def uC7a : Unity := ⟨[bC7a], 0, 1/2, 0, 0, 0⟩

def uC7b : Unity := ⟨[bC7b], 0, 1/2, 0, 0, 0⟩

/-- Two unities share goal 0 (heap index 0, health 251, one hit from
being spent); unity 0 overlaps it and will metabolize it during its
move, before unity 1 runs its update. -/
def wC7 : World := ⟨[uC7a, uC7b], [0, 1], [gC7a, gC7b], 2⟩

def rngC7 : Rng := ⟨[1/2, 1/2], [0, 0, 0, 0, 0], []⟩

/-- The result of self_reproduction on the 20-boid unity `uC1`. -/
def reproC1 : Option (World × Rng) := self_reproduction 0 wC1 rngC1

/-- The world after that split (some-case; `reproC1.isSome` is proved). -/
def reproC1w : World := (reproC1.getD (wC1, rngC1)).1

/-- The result of Unity.update on the two-boid unity where the first
boid dies. -/
def updC6 : World × Rng × List PursueEvent := update false 0 wC6 rngC6 []

def bC8 : Boid := ⟨0, 300, 300, 1, 1, 0, 0, 300, 300, 100⟩

def uC8 : Unity := ⟨[bC8], 0, 1/2, 2, 0, 4⟩

/-- Goal 0 sits at the boid's center with health 251: one hit spends it. -/
def wC8 : World := ⟨[uC8], [0, 1], [⟨300, 300, 10, 251⟩, ⟨700, 700, 10, 500⟩], 7⟩

def rngC8 : Rng := ⟨[], [3, 5, 9, 0], []⟩

def bC10 : Boid := ⟨0, 50, 50, 1, 1, 0, 0, 50, 50, 100⟩

def uC10 : Unity := ⟨[bC10], 0, 1/2, 0, 0, 0⟩

/-- The target (heap index 0) is in the pool but far from the boid's
center neighborhood: the overlap test fails. -/
def wC10 : World := ⟨[uC10], [0, 1], [⟨400, 400, 10, 800⟩, ⟨700, 700, 10, 500⟩], 1⟩

def rngC10 : Rng := ⟨[3], [4], [[0]]⟩

def bC7w : Boid := ⟨0, 40, 40, 1, 1, 0, 0, 40, 40, 50⟩

def uC7w : Unity := ⟨[bC7w], 1, 1/2, 0, 0, 0⟩

def wC7w : World := ⟨[uC7w], [1, 0], [⟨600, 600, 10, 900⟩, ⟨300, 300, 10, 900⟩], 1⟩

def rngC7w : Rng := ⟨[], [], []⟩

/-! Helper lemmas. -/

theorem limit_velocity_ax (b : Boid) : (limit_velocity b).ax = b.ax := by
  simp only [limit_velocity]
  split <;> split <;> rfl

theorem limit_velocity_ay (b : Boid) : (limit_velocity b).ay = b.ay := by
  simp only [limit_velocity]
  split <;> split <;> rfl

theorem getD_set_self (l : List α) (i : ℕ) (a d : α) (h : i < l.length) :
    (l.set i a).getD i d = a := by
  induction l generalizing i with
  | nil => simp at h
  | cons x t ih =>
    cases i with
    | zero => rfl
    | succ n => simpa using ih n (by simpa using h)

theorem set_getD_self (l : List α) (i : ℕ) (d : α) (h : i < l.length) :
    l.set i (l.getD i d) = l := by
  induction l generalizing i with
  | nil => simp at h
  | cons x t ih =>
    cases i with
    | zero => rfl
    | succ n => simpa using ih n (by simpa using h)

theorem nodup_not_mem_erase [DecidableEq α] {l : List α} (h : l.Nodup)
    (a : α) : a ∉ l.erase a := by
  induction l with
  | nil => simp
  | cons x t ih =>
    rw [List.erase_cons]
    by_cases hx : x = a
    · simp only [hx, beq_self_eq_true, if_true]
      exact fun hm => (List.nodup_cons.mp h).1 (hx ▸ hm)
    · simp only [beq_iff_eq, hx, if_false, List.mem_cons]
      rintro (rfl | hm)
      · exact hx rfl
      · exact ih (List.nodup_cons.mp h).2 hm

theorem get_random_goal_mem {pool : List ℕ} {k g : ℕ}
    (h : get_random_goal pool k = some g) : g ∈ pool := by
  unfold get_random_goal at h
  rcases List.getElem?_eq_some.mp h with ⟨hk, rfl⟩
  exact List.getElem_mem hk

theorem get_random_goal_isSome {pool : List ℕ} (h : pool ≠ []) (k : ℕ) :
    ∃ g, get_random_goal pool k = some g ∧ g ∈ pool := by
  have hl : 0 < pool.length := List.length_pos.mpr h
  have hk : k % pool.length < pool.length := Nat.mod_lt _ hl
  refine ⟨pool[k % pool.length], ?_, List.getElem_mem hk⟩
  unfold get_random_goal
  exact List.getElem?_eq_getElem hk

theorem mem_rangeList {n a b : ℤ} : n ∈ rangeList a b ↔ a ≤ n ∧ n < b := by
  unfold rangeList
  simp only [List.mem_map, List.mem_range]
  constructor
  · rintro ⟨i, hi, rfl⟩
    omega
  · intro h
    refine ⟨(n - a).toNat, ?_, ?_⟩ <;> omega

theorem memRangeQ_iff (q : ℚ) (a b : ℤ) :
    memRangeQ q a b = true ↔ q.den = 1 ∧ a ≤ q.num ∧ q.num < b := by
  unfold memRangeQ
  simp only [List.any_eq_true, decide_eq_true_eq]
  constructor
  · rintro ⟨n, hn, hq⟩
    have hb := mem_rangeList.mp hn
    subst hq
    simp only [Rat.num_intCast, Rat.den_intCast]
    exact ⟨trivial, hb.1, hb.2⟩
  · rintro ⟨hden, h1, h2⟩
    exact ⟨q.num, mem_rangeList.mpr ⟨h1, h2⟩,
      ((Rat.den_eq_one_iff q).mp hden).symm⟩

theorem reassign_if_lost_goal_mem {u u' : Unity} {pool : List ℕ}
    {rng rng' : Rng} (h : reassign_if_lost u pool rng = some (u', rng')) :
    u'.goal ∈ pool := by
  unfold reassign_if_lost at h
  by_cases hm : u.goal ∈ pool
  · rw [if_pos hm] at h
    cases h
    exact hm
  · rw [if_neg hm] at h
    rcases hg : get_random_goal pool (popK rng).1 with _ | g
    · rw [hg] at h; cases h
    · rw [hg] at h
      cases h
      exact get_random_goal_mem hg

theorem setUnity_self {w : World} {ui : ℕ} (hui : ui < w.unities.length) :
    setUnity w ui (w.unities.getD ui defaultUnity) = w := by
  unfold setUnity
  rw [set_getD_self _ _ _ hui]

theorem getD_setUnity_self {w : World} {ui : ℕ} (u : Unity)
    (hui : ui < w.unities.length) :
    (setUnity w ui u).unities.getD ui defaultUnity = u := by
  unfold setUnity
  exact getD_set_self _ _ _ _ hui

theorem getGoal_hit_self {w : World} {g : ℕ} (hg : g < w.heap.length) :
    getGoal (hit_goal w g) g
      = { getGoal w g with health := (getGoal w g).health - 1 } := by
  unfold hit_goal getGoal
  exact getD_set_self _ _ _ _ hg

theorem metabolize_goal_mem {ui : ℕ} {u : Unity} {w : World} {rng : Rng}
    {w' : World} {rng' : Rng} (hui : ui < w.unities.length)
    (h : metabolize ui u w rng = some (w', rng')) :
    (w'.unities.getD ui defaultUnity).goal ∈ w'.pool := by
  unfold metabolize at h
  dsimp only at h
  split at h
  · exact Option.noConfusion h
  · rename_i ng hng
    rw [Option.some.injEq, Prod.mk.injEq] at h
    obtain ⟨hw, _⟩ := h
    subst hw
    rw [getD_setUnity_self _ (by simpa [setUnity] using hui)]
    exact get_random_goal_mem hng

/-- Full characterization of the worlds produced by the metabolize
branch of check_goal: three boids appended at the (possibly already
hit) target's coordinates, `metabolised` incremented, the target erased
from the pool and a fresh pool member assigned. -/
theorem metabolize_spec {ui : ℕ} {u : Unity} {w : World} {rng : Rng}
    (hui : ui < w.unities.length) (hmem' : u.goal ∈ w.pool)
    (hnd : w.pool.Nodup) (hne : w.pool.erase u.goal ≠ []) :
    ∃ w' rng', metabolize ui u w rng = some (w', rng') ∧
      (w'.unities.getD ui defaultUnity).boids.length = u.boids.length + 3 ∧
      (∀ nb ∈ (w'.unities.getD ui defaultUnity).boids.drop u.boids.length,
        nb.rx = (getGoal w u.goal).circleX ∧
        nb.ry = (getGoal w u.goal).circleY) ∧
      (w'.unities.getD ui defaultUnity).metabolised = u.metabolised + 1 ∧
      u.goal ∉ w'.pool := by
  unfold metabolize append_goal_boid
  simp only [getGoal]
  rw [show remove_goal w.pool u.goal = w.pool.erase u.goal from by
    unfold remove_goal; rw [if_pos hmem']]
  obtain ⟨ng, hng, hngP⟩ :=
    get_random_goal_isSome hne (popK (popK (popK (popK rng).2).2).2).1
  rw [hng]
  refine ⟨_, _, rfl, ?_, ?_, ?_, ?_⟩
  · rw [getD_setUnity_self _ (by simpa using hui)]
    simp [List.length_append]
  · rw [getD_setUnity_self _ (by simpa using hui)]
    intro nb hnb
    simp only [List.append_assoc, List.drop_left, List.mem_append,
      List.mem_singleton] at hnb
    rcases hnb with h | h | h <;> rw [h] <;> exact ⟨rfl, rfl⟩
  · rw [getD_setUnity_self _ (by simpa using hui)]
  · exact nodup_not_mem_erase hnd _

/-! Per-claim theorems. -/

/-- C1: splitting a Group of size N ≥ 20 is claimed to produce two
groups whose combined membership equals N, with the new Group's
generation one more than the parent's and the parent's splits counter
incremented by 1.  Evaluating the source's split on a 20-boid unity
shows the parent keeps `boids[0:10]` (10 boids) and the child receives
`boids[11:19]` (8 boids): two boids (indices 10 and 19 of the shuffled
list) are silently dropped, so the combined count is 18, not 20.  The
generation and splits parts do hold. -/
theorem split_drops_two_boids :
    reproC1.isSome = true ∧
    (reproC1w.unities.getD 0 defaultUnity).boids.length = 10 ∧
    (reproC1w.unities.getD 1 defaultUnity).boids.length = 8 ∧
    (reproC1w.unities.getD 0 defaultUnity).boids.length +
      (reproC1w.unities.getD 1 defaultUnity).boids.length ≠
      uC1.boids.length ∧
    (reproC1w.unities.getD 1 defaultUnity).generation = uC1.generation + 1 ∧
    (reproC1w.unities.getD 0 defaultUnity).splits = uC1.splits + 1 := by
  decide

/-- C2: boundary handling is claimed to flip the velocity component of
any clamped axis.  Evaluating check_boundaries at a proposed move with
`y = -1` (boid velocity `(3, 7)`): the position is clamped to `y = 0`,
but the source's `current_boid.velocity[y]` (where `y` has just been
set to 0) assigns `velocity[X] := -velocity[Y]`, so the result has
`vx = -7` and `vy = 7`: the Y component is not flipped and the X
component is corrupted. -/
theorem check_boundaries_y_branch_bug :
    check_boundaries 5 (-1) 100 100 bC2 = ((5, 0), { bC2 with vx := -7 }) ∧
    (check_boundaries 5 (-1) 100 100 bC2).2.vy = bC2.vy ∧
    (check_boundaries 5 (-1) 100 100 bC2).2.vy ≠ -bC2.vy ∧
    (check_boundaries 5 (-1) 100 100 bC2).2.vx ≠ bC2.vx := by
  decide

/-- C3: cohesion is claimed to equal `(barycenter of the other group
members - position) / 100`.  On a two-boid group where the current
boid's stored center is `(10, 10)`, position `(0, 0)`, and the other
boid sits at `(20, 0)`, the source returns `((10+20)/2 - 0)/100 =
(3/20, 1/20)` (seeding the sum with the stale stored center and
dividing by `size()` = 2 instead of by 1), while the spec formula gives
`(1/5, 0)`; the source also mutates the stored center.  The
singleton-group part of the claim does hold: on a one-boid group
cohesion returns the zero vector and leaves the boid untouched. -/
theorem cohesion_accumulator_bug :
    (cohesion uC3 bC3).1 = (3/20, 1/20) ∧
    spec_cohesion uC3 bC3 = (1/5, 0) ∧
    (cohesion uC3 bC3).1 ≠ spec_cohesion uC3 bC3 ∧
    (cohesion uC3 bC3).2.cx ≠ bC3.cx ∧
    cohesion uC3s bC3 = ((0, 0), bC3) := by
  decide

/-- C4 counterexample: the pursuit contribution to the acceleration is
claimed to be `(goal.position - a.position) / 40`.  On a singleton
group whose boid has position `(0, 0)` but stored center `(100, 0)`,
with the goal at `(200, 0)`, the pursue-flag contribution to the
x-acceleration is `(200 - 100)/40 = 5/2` (the source uses
`current_boid.center`), not `(200 - 0)/40 = 5`. -/
theorem pursue_position_counterexample :
    (boid_forces true wC4 uC4 bC4).ax - (boid_forces false wC4 uC4 bC4).ax
      = 5/2 ∧
    (((getGoal wC4 uC4.goal).circleX : ℚ) - (bC4.rx : ℚ)) / 40 = 5 ∧
    (boid_forces true wC4 uC4 bC4).ax - (boid_forces false wC4 uC4 bC4).ax
      ≠ (((getGoal wC4 uC4.goal).circleX : ℚ) - (bC4.rx : ℚ)) / 40 := by
  decide

/-- C4 amended: the pursuit contribution to the acceleration (the
difference between the accelerations computed with the PURSUE flag true
and false) equals `(goal.position - center') / 40`, where `center'` is
the boid's stored center after the cohesion step of the same update
(the source's `pursue` reads `current_boid.center`, not the rect
position); with the flag false the acceleration is exactly cohesion
plus separation. -/
theorem pursuit_contribution_uses_center (w : World) (u : Unity) (b : Boid) :
    (boid_forces true w u b).ax - (boid_forces false w u b).ax
      = (((getGoal w u.goal).circleX : ℚ) - ((cohesion u b).2).cx) / 40 ∧
    (boid_forces true w u b).ay - (boid_forces false w u b).ay
      = (((getGoal w u.goal).circleY : ℚ) - ((cohesion u b).2).cy) / 40 ∧
    (boid_forces false w u b).ax
      = (cohesion u b).1.1 + (separation w (cohesion u b).2).1 ∧
    (boid_forces false w u b).ay
      = (cohesion u b).1.2 + (separation w (cohesion u b).2).2 := by
  refine ⟨?_, ?_, ?_, ?_⟩ <;>
    simp [boid_forces, limit_velocity_ax, limit_velocity_ay, pursue]

/-- C5 counterexample: the obstacle check is claimed to reflect any
proposed move that falls within the target Resource's bounding box.
The point `(200, 401/2)` lies inside the goal's box (goal at
`(200, 200)`, radius 10) but has a fractional y, so the source's
`y in range(...)` membership test is false and the move and the
velocity are returned entirely unchanged, not reflected and dampened. -/
theorem check_obstacles_containment_counterexample :
    inObstacleBoxReal gC5 200 (401/2) ∧
    check_obstacles wC5 uC5 200 (401/2) bC5 = ((200, 401/2), bC5) ∧
    (200 : ℚ) ≠ 200 - ((gC5.circleX : ℚ) - (bC5.rx : ℚ)) ∧
    bC5.vx ≠ -bC5.vx * (1/10) := by
  decide

/-- C6: the per-frame update is claimed to decrement every Agent's
health and to remove dead Agents before any force computation.
Evaluating update on a group `[a, b]` where `a` dies of the first
health draw: the source's `pop(i)` inside the iteration makes the
cursor skip `b` entirely, so `b` emerges with health, velocity and
acceleration untouched and only one `random()` draw consumed (the
popped boid `a` still runs through the force computation, witnessed by
the single recorded pursue event).  The radius is indeed recomputed as
`size()/2`. -/
theorem update_death_skips_successor :
    updC6.1.unities.getD 0 defaultUnity
      = { uC6 with boids := [bC6b], radius := 1/2 } ∧
    updC6.2.1.qs = [1/2] ∧
    updC6.2.2 = [⟨0, 0, true⟩] := by
  decide

set_option maxRecDepth 40000 in
/-- C7 counterexample: the claim says that whenever a pursuit force is
computed, the Group's target is in the active pool or has been replaced
since its removal.  In the concrete frame `wC7` two unities share goal
0; unity 0 metabolizes it (removing it from the pool) during its move,
and unity 1's subsequent update then computes pursue with goal 0 still
as its target: the recorded event has `inPool = false` and the target
id unchanged from the start of the frame, violating the invariant. -/
theorem pursuit_invariant_counterexample :
    (update_boid_positions false 1800 1000 5 50 wC7 rngC7).isSome = true ∧
    ¬ pursuit_invariant_run false 1800 1000 5 50 wC7 rngC7 := by
  decide

/-- C7 amended: every successful check_goal call leaves the Group's
target Resource in the active pool (an absent target is replaced with a
pool member, and the metabolize branch reassigns from the post-removal
pool); the broken part of the original claim — pursuit computations in
update seeing a target removed earlier in the frame — is witnessed by
the counterexample above. -/
theorem check_goal_restores_target (ui : ℕ) (b : Boid) (w : World)
    (rng : Rng) (w' : World) (rng' : Rng) (hui : ui < w.unities.length)
    (h : check_goal ui b w rng = some (w', rng')) :
    (w'.unities.getD ui defaultUnity).goal ∈ w'.pool := by
  unfold check_goal at h
  dsimp only at h
  split at h
  · exact Option.noConfusion h
  · rename_i u rng1 hre
    have hmem : u.goal ∈ w.pool := reassign_if_lost_goal_mem hre
    split at h
    · rename_i hov
      split at h
      · rename_i hle
        have hui2 : ui < (hit_goal (setUnity w ui u) u.goal).unities.length := by
          simpa [hit_goal, setUnity] using hui
        exact metabolize_goal_mem hui2 h
      · rename_i hle
        rw [Option.some.injEq, Prod.mk.injEq] at h
        obtain ⟨hw, _⟩ := h
        subst hw
        have hgd : (hit_goal (setUnity w ui u) u.goal).unities.getD ui
            defaultUnity = u := by
          have := @getD_setUnity_self w ui u hui
          simpa [hit_goal, setUnity] using this
        rw [hgd]
        simpa [hit_goal, setUnity] using hmem
    · rename_i hov
      rw [Option.some.injEq, Prod.mk.injEq] at h
      obtain ⟨hw, _⟩ := h
      subst hw
      rw [getD_setUnity_self u hui]
      simpa [setUnity] using hmem

/-- C7 amended witness: a concrete successful check_goal call whose
resulting target is in the resulting pool. -/
theorem check_goal_restores_target_witness :
    (wC7w.unities.getD 0 defaultUnity).goal ∈ wC7w.pool :=
  check_goal_restores_target 0 bC7w wC7w rngC7w wC7w rngC7w (by decide)
    (by decide)

/-- C8: when the overlap test passes and the hit drives the target's
health to ≤ 250 (pre-hit health ≤ 251), check_goal appends exactly 3
boids at the target Resource's coordinates, increments `metabolised` by
exactly 1, and leaves the Resource absent from the active pool; and
removing an already-absent Resource from the pool is a silent no-op
(the source's try/except around `goals.remove`). -/
theorem check_goal_metabolize_effects (ui : ℕ) (b : Boid) (w : World)
    (rng : Rng) (hui : ui < w.unities.length)
    (hg : (w.unities.getD ui defaultUnity).goal < w.heap.length)
    (hmem : (w.unities.getD ui defaultUnity).goal ∈ w.pool)
    (hov : goal_ranges_overlap w (w.unities.getD ui defaultUnity) b = true)
    (hh : (getGoal w (w.unities.getD ui defaultUnity).goal).health ≤ 251)
    (hnd : w.pool.Nodup)
    (hne : w.pool.erase (w.unities.getD ui defaultUnity).goal ≠ []) :
    ∃ w' rng', check_goal ui b w rng = some (w', rng') ∧
      (w'.unities.getD ui defaultUnity).boids.length
        = (w.unities.getD ui defaultUnity).boids.length + 3 ∧
      (∀ nb ∈ (w'.unities.getD ui defaultUnity).boids.drop
          (w.unities.getD ui defaultUnity).boids.length,
        nb.rx = (getGoal w (w.unities.getD ui defaultUnity).goal).circleX ∧
        nb.ry = (getGoal w (w.unities.getD ui defaultUnity).goal).circleY) ∧
      (w'.unities.getD ui defaultUnity).metabolised
        = (w.unities.getD ui defaultUnity).metabolised + 1 ∧
      (w.unities.getD ui defaultUnity).goal ∉ w'.pool ∧
      (∀ (pool : List ℕ) (g : ℕ), g ∉ pool → remove_goal pool g = pool) := by
  have hset : setUnity w ui (w.unities.getD ui defaultUnity) = w :=
    setUnity_self hui
  have hre : reassign_if_lost (w.unities.getD ui defaultUnity) w.pool rng
      = some (w.unities.getD ui defaultUnity, rng) := by
    unfold reassign_if_lost
    rw [if_pos hmem]
  have hle : (getGoal (hit_goal w (w.unities.getD ui defaultUnity).goal)
      (w.unities.getD ui defaultUnity).goal).health ≤ 250 := by
    rw [getGoal_hit_self hg]
    dsimp only
    omega
  have hcg : check_goal ui b w rng
      = metabolize ui (w.unities.getD ui defaultUnity)
          (hit_goal w (w.unities.getD ui defaultUnity).goal) rng := by
    unfold check_goal
    dsimp only
    rw [hre]
    dsimp only
    rw [hset, hov]
    rw [if_pos rfl, if_pos hle]
  rw [hcg]
  have hui2 : ui < (hit_goal w
      (w.unities.getD ui defaultUnity).goal).unities.length := by
    simpa [hit_goal] using hui
  have hmem2 : (w.unities.getD ui defaultUnity).goal
      ∈ (hit_goal w (w.unities.getD ui defaultUnity).goal).pool := by
    simpa [hit_goal] using hmem
  have hnd2 : (hit_goal w (w.unities.getD ui defaultUnity).goal).pool.Nodup := by
    simpa [hit_goal] using hnd
  have hne2 : (hit_goal w (w.unities.getD ui defaultUnity).goal).pool.erase
      (w.unities.getD ui defaultUnity).goal ≠ [] := by
    simpa [hit_goal] using hne
  obtain ⟨w', rng', hrun, hlen, hpos, hmet, hnm⟩ :=
    metabolize_spec hui2 hmem2 hnd2 hne2
  have hcx : (getGoal (hit_goal w (w.unities.getD ui defaultUnity).goal)
      (w.unities.getD ui defaultUnity).goal).circleX
      = (getGoal w (w.unities.getD ui defaultUnity).goal).circleX := by
    rw [getGoal_hit_self hg]
  have hcy : (getGoal (hit_goal w (w.unities.getD ui defaultUnity).goal)
      (w.unities.getD ui defaultUnity).goal).circleY
      = (getGoal w (w.unities.getD ui defaultUnity).goal).circleY := by
    rw [getGoal_hit_self hg]
  refine ⟨w', rng', hrun, hlen, ?_, hmet, hnm, ?_⟩
  · intro nb hnb
    obtain ⟨h1, h2⟩ := hpos nb hnb
    exact ⟨hcx ▸ h1, hcy ▸ h2⟩
  · intro pool g hg'
    unfold remove_goal
    rw [if_neg hg']

/-- C8 witness: a concrete metabolizing check_goal call (target at the
boid's center, health 251, pool `[0, 1]`). -/
theorem check_goal_metabolize_effects_witness :
    ∃ w' rng', check_goal 0 bC8 wC8 rngC8 = some (w', rng') ∧
      (w'.unities.getD 0 defaultUnity).boids.length
        = (wC8.unities.getD 0 defaultUnity).boids.length + 3 ∧
      (∀ nb ∈ (w'.unities.getD 0 defaultUnity).boids.drop
          (wC8.unities.getD 0 defaultUnity).boids.length,
        nb.rx = (getGoal wC8 (wC8.unities.getD 0 defaultUnity).goal).circleX ∧
        nb.ry = (getGoal wC8 (wC8.unities.getD 0 defaultUnity).goal).circleY) ∧
      (w'.unities.getD 0 defaultUnity).metabolised
        = (wC8.unities.getD 0 defaultUnity).metabolised + 1 ∧
      (wC8.unities.getD 0 defaultUnity).goal ∉ w'.pool ∧
      (∀ (pool : List ℕ) (g : ℕ), g ∉ pool → remove_goal pool g = pool) :=
  check_goal_metabolize_effects 0 bC8 wC8 rngC8 (by decide) (by decide)
    (by decide) (by decide) (by decide) (by decide) (by decide)

/-- C9: every random target selection (`goals[randint(0, len(goals)-1)]`
in app.py get_random_goal and in both reassignments of check_goal, all
embedded through get_random_goal) is undefined on an empty pool
(`randint(0, -1)` raises, modelled as `none`) and returns an element of
the pool whenever the pool is non-empty. -/
theorem get_random_goal_contract (pool : List ℕ) (k : ℕ) :
    (pool = [] → get_random_goal pool k = none) ∧
    (pool ≠ [] → ∃ g ∈ pool, get_random_goal pool k = some g) := by
  constructor
  · rintro rfl
    simp [get_random_goal]
  · intro h
    obtain ⟨g, hg, hm⟩ := get_random_goal_isSome h k
    exact ⟨g, hm, hg⟩

/-- C9 witness: the contract evaluated at an empty and at a non-empty
pool. -/
theorem get_random_goal_contract_witness :
    get_random_goal [] 4 = none ∧
    ∃ g ∈ [2, 7], get_random_goal [2, 7] 5 = some g :=
  ⟨(get_random_goal_contract [] 4).1 rfl,
   (get_random_goal_contract [2, 7] 5).2 (by decide)⟩

/-- C10: a check_goal call whose target is in the pool at entry and
whose bounding-box overlap test fails returns the state completely
unchanged — in particular the goals pool, the Group's membership, its
radius, its `metabolised` counter and its target are all unchanged (and
no randomness is consumed). -/
theorem check_goal_no_overlap_no_effect (ui : ℕ) (b : Boid) (w : World)
    (rng : Rng) (hui : ui < w.unities.length)
    (hmem : (w.unities.getD ui defaultUnity).goal ∈ w.pool)
    (hov : goal_ranges_overlap w (w.unities.getD ui defaultUnity) b = false) :
    check_goal ui b w rng = some (w, rng) := by
  have hset : setUnity w ui (w.unities.getD ui defaultUnity) = w :=
    setUnity_self hui
  have hre : reassign_if_lost (w.unities.getD ui defaultUnity) w.pool rng
      = some (w.unities.getD ui defaultUnity, rng) := by
    unfold reassign_if_lost
    rw [if_pos hmem]
  unfold check_goal
  dsimp only
  rw [hre]
  dsimp only
  rw [hset, hov]
  simp [hset]

/-- C10 witness: a concrete no-overlap check_goal call returning the
input state verbatim. -/
theorem check_goal_no_overlap_no_effect_witness :
    check_goal 0 bC10 wC10 rngC10 = some (wC10, rngC10) :=
  check_goal_no_overlap_no_effect 0 bC10 wC10 rngC10 (by decide) (by decide)
    (by decide)

/-- C5 amended: check_obstacles reflects the move and dampens the
velocity exactly when the proposed x and y are integer-valued and lie
in the half-open integer ranges `[circleX - 2*radius, circleX +
2*radius)` and `[circleY - radius, circleY + radius)` (the Python
`in range(...)` membership); otherwise the move and the boid are
returned unchanged. -/
theorem check_obstacles_characterization (w : World) (u : Unity)
    (x y : ℚ) (b : Boid) :
    ((x.den = 1 ∧ y.den = 1 ∧
      (getGoal w u.goal).circleX - (getGoal w u.goal).radius * 2 ≤ x.num ∧
      x.num < (getGoal w u.goal).circleX + (getGoal w u.goal).radius * 2 ∧
      (getGoal w u.goal).circleY - (getGoal w u.goal).radius ≤ y.num ∧
      y.num < (getGoal w u.goal).circleY + (getGoal w u.goal).radius) →
      check_obstacles w u x y b =
        ((x - (((getGoal w u.goal).circleX : ℚ) - (b.rx : ℚ)),
          y - (((getGoal w u.goal).circleY : ℚ) - (b.ry : ℚ))),
         { b with vx := -b.vx * (1/10), vy := -b.vy * (1/10) })) ∧
    (¬ (x.den = 1 ∧ y.den = 1 ∧
      (getGoal w u.goal).circleX - (getGoal w u.goal).radius * 2 ≤ x.num ∧
      x.num < (getGoal w u.goal).circleX + (getGoal w u.goal).radius * 2 ∧
      (getGoal w u.goal).circleY - (getGoal w u.goal).radius ≤ y.num ∧
      y.num < (getGoal w u.goal).circleY + (getGoal w u.goal).radius) →
      check_obstacles w u x y b = ((x, y), b)) := by
  constructor
  · rintro ⟨h1, h2, h3, h4, h5, h6⟩
    unfold check_obstacles
    dsimp only
    have hc : (memRangeQ x
        ((getGoal w u.goal).circleX - (getGoal w u.goal).radius * 2)
        ((getGoal w u.goal).circleX + (getGoal w u.goal).radius * 2)
        && memRangeQ y
        ((getGoal w u.goal).circleY - (getGoal w u.goal).radius)
        ((getGoal w u.goal).circleY + (getGoal w u.goal).radius)) = true := by
      rw [Bool.and_eq_true]
      exact ⟨(memRangeQ_iff x _ _).mpr ⟨h1, h3, h4⟩,
             (memRangeQ_iff y _ _).mpr ⟨h2, h5, h6⟩⟩
    rw [if_pos hc]
  · intro hn
    unfold check_obstacles
    dsimp only
    rw [if_neg]
    intro hcond
    rw [Bool.and_eq_true] at hcond
    obtain ⟨hx, hy⟩ := hcond
    obtain ⟨a1, a2, a3⟩ := (memRangeQ_iff x _ _).mp hx
    obtain ⟨c1, c2, c3⟩ := (memRangeQ_iff y _ _).mp hy
    exact hn ⟨a1, c1, a2, a3, c2, c3⟩

/-- C5 amended witness: an integer in-range proposed move is reflected
and the velocity dampened. -/
theorem check_obstacles_characterization_witness :
    check_obstacles wC5 uC5 195 205 bC5 =
      (((195 : ℚ) - (((getGoal wC5 uC5.goal).circleX : ℚ) - (bC5.rx : ℚ)),
        (205 : ℚ) - (((getGoal wC5 uC5.goal).circleY : ℚ) - (bC5.ry : ℚ))),
       { bC5 with vx := -bC5.vx * (1/10), vy := -bC5.vy * (1/10) }) :=
  (check_obstacles_characterization wC5 uC5 195 205 bC5).1 (by decide)

end Autopoiesis
